import Mathlib

set_option maxRecDepth 4000

/-!
Verification of the document-validation and LLM-orchestration pipeline of the
Exam-Pilot study-aid application.  Text is modelled as a list of characters;
the heuristic keyword engine, the retry state machine, the model-fallback
orchestrator, the response interpreter, the upload gate and the markdown
export are embedded as executable Lean functions mirroring the JavaScript
source.  External dependencies (the PDF page decoder, the JSON parser of the
runtime, the generative-model network call) enter as explicit parameters.
-/

namespace ExamPilot

/-- Text is modelled as a list of characters. -/
abbrev Str := List Char

/-- Character-wise lower-casing (models toLowerCase for the ASCII range). -/
def toLowerStr (s : Str) : Str := s.map Char.toLower

/-- Does `pat` occur as a contiguous substring of `s`?  Models
String.prototype.includes: scans every starting position. -/
def containsSub (pat : Str) : Str → Bool
  | [] => pat.isPrefixOf []
  | c :: rest => pat.isPrefixOf (c :: rest) || containsSub pat rest

/-- Fueled helper counting non-overlapping occurrences of `pat`, scanning left
to right and skipping the length of the pattern after each match, exactly like
a global regular-expression search.  The fuel starts as the length of the
scanned string, which bounds the recursion depth. -/
def countOccsGo (pat : Str) : Nat → Str → Nat
  | 0, _ => 0
  | _, [] => 0
  | fuel + 1, c :: rest =>
    if pat.isPrefixOf (c :: rest) then
      1 + countOccsGo pat fuel (rest.drop (pat.length - 1))
    else countOccsGo pat fuel rest

/-- Number of non-overlapping occurrences of `pat` in `s` (models
text.match with a global regular expression, counting the matches). -/
def countOccs (pat s : Str) : Nat := countOccsGo pat s.length s

/-- Helper for `wordCount`: the flag records whether the scanner currently sits
inside a word, so that each maximal run of non-whitespace is counted once. -/
def wordCountAux : Bool → Str → Nat
  | _, [] => 0
  | inWord, c :: rest =>
    if Char.isWhitespace c then wordCountAux false rest
    else (if inWord then 0 else 1) + wordCountAux true rest

/-- Number of whitespace-delimited non-empty tokens of `s` (models splitting
on runs of whitespace and filtering out the empty pieces). -/
def wordCount (s : Str) : Nat := wordCountAux false s

/-- The fixed academic-keyword vocabulary of the heuristic engine, copied from
the source in order. -/
def ACADEMIC_KEYWORDS : List Str :=
  [ "syllabus".toList, "university".toList, "semester".toList, "unit".toList,
    "marks".toList, "question".toList, "exam".toList, "paper".toList,
    "course".toList, "module".toList, "credit".toList, "curriculum".toList,
    "assessment".toList, "topic".toList, "chapter".toList ]

/-- Result of `countKeywordsInText`: the number of distinct vocabulary terms
found and the matched set. -/
structure KeywordCount where
  count : Nat
  found : List Str
deriving DecidableEq

/-- Count how many distinct keywords appear in `text` (case-insensitive
substring containment), mirroring countKeywordsInText of the source. -/
def countKeywordsInText (text : Str) : KeywordCount :=
  let lower := toLowerStr text
  let found := ACADEMIC_KEYWORDS.filter (fun kw => containsSub kw lower)
  ⟨found.length, found.dedup⟩

/-- Layer 1 quick check: do the first `firstNChars` characters contain at
least `minKeywords` distinct vocabulary terms? -/
def hasMinimumAcademicKeywords (text : Str) (firstNChars : Nat := 1000)
    (minKeywords : Nat := 2) : Bool :=
  decide (minKeywords ≤ (countKeywordsInText (text.take firstNChars)).count)

/-- Result record of the Layer 2 gatekeeper `validateDocumentContent`.  The
early return of the source for empty input omits the distinct-keyword field;
the embedding sets it to 0 there.  The floating-point density of the source is
modelled with exact rationals. -/
structure ValidationResult where
  score : ℚ
  passed : Bool
  keywordCount : Nat
  distinctKeywords : Nat
deriving DecidableEq

/-- Total number of keyword occurrences in `text`, every vocabulary term
counted with repeats by a global case-insensitive search (modelled by
searching the lower-cased text, equivalent for the ASCII vocabulary). -/
def keywordOccurrences (text : Str) : Nat :=
  (ACADEMIC_KEYWORDS.map (fun kw => countOccs kw (toLowerStr text))).sum

/-- Layer 2 gatekeeper: keyword-density relevance score, mirroring
validateDocumentContent.  The score is occurrences per 100 words capped at
100; passing needs at least 2 distinct keywords and density at least 0.3. -/
def validateDocumentContent (text : Str) : ValidationResult :=
  if text = [] then ⟨0, false, 0, 0⟩
  else
    let wc := wordCount text
    let occ := keywordOccurrences text
    let score : ℚ := if 0 < wc then min 100 ((occ : ℚ) / (wc : ℚ) * 100) else 0
    let distinct := (countKeywordsInText text).count
    ⟨score, decide (2 ≤ distinct) && decide ((3 / 10 : ℚ) ≤ score), occ, distinct⟩

/-- Page loop of extractTextFromPdf: append page text plus a newline while the
accumulated length is below the budget, then truncate to the budget. -/
def extractPages (maxChars : Nat) : List Str → Str → Str
  | [], acc => acc.take maxChars
  | p :: ps, acc =>
    if acc.length < maxChars then extractPages maxChars ps (acc ++ p ++ [ '\n' ])
    else acc.take maxChars

/-- Text extractor: given the decoded page texts (the external PDF decoder is
modelled by this input) and a character budget, produce the bounded prefix. -/
def extractTextFromPdf (pages : List Str) (maxChars : Nat := 5000) : Str :=
  extractPages maxChars pages []

/-- Observable events of the model-invocation state machine: a progress
report, an artificial wait of the given number of milliseconds, and one
invocation of the underlying model (the attempt number is recorded). -/
inductive Ev where
  | progress (msg : String)
  | sleep (ms : Nat)
  | call (attempt : Nat)
deriving DecidableEq

/-- Fatal-error classification of generateContentWithRetry: these substrings
of the raised message abort the retry loop immediately. -/
def isFatalMsg (m : String) : Bool :=
  containsSub ("timeout".toList) m.toList || containsSub ("invalid".toList) m.toList ||
    containsSub ("quota".toList) m.toList || containsSub ("401".toList) m.toList ||
    containsSub ("403".toList) m.toList

/-- Transient-error classification of generateContentWithRetry: these
substrings make the error eligible for retry. -/
def isTransientMsg (m : String) : Bool :=
  containsSub ("503".toList) m.toList || containsSub ("500".toList) m.toList ||
    containsSub ("429".toList) m.toList || containsSub ("high demand".toList) m.toList

/-- Exponential backoff with a 10 second ceiling, in milliseconds, waited
before retry attempt `attempt`. -/
def backoffDelay (attempt : Nat) : Nat := min (1000 * 2 ^ (attempt - 2)) 10000

/-- The progress label reported before a retry wait. -/
def retryingMsg (attempt maxRetries : Nat) : String :=
  "Retrying... (Attempt " ++ toString attempt ++ "/" ++ toString maxRetries ++ ")"

/-- One pass of the retry loop of generateContentWithRetry.  The model is a
function from the attempt number to either a response or a raised error
message; the fuel counts the remaining loop iterations (the wrapper passes
exactly `maxRetries`, so fuel 0 corresponds to `attempt > maxRetries` and the
loop exit that rethrows the last stored error).  The returned event list
records progress reports, backoff waits and model invocations in order. -/
def retryGo {α : Type} (model : Nat → Except String α) (maxRetries : Nat) :
    Nat → Nat → Option String → List Ev × Except (Option String) α
  | 0, _, lastError => ([], .error lastError)
  | fuel + 1, attempt, _ =>
    let pre : List Ev :=
      if 1 < attempt then
        [ .progress (retryingMsg attempt maxRetries), .sleep (backoffDelay attempt)]
      else []
    match model attempt with
    | .ok r => (pre ++ [ .call attempt], .ok r)
    | .error msg =>
      if isFatalMsg msg then (pre ++ [ .call attempt], .error (some msg))
      else if isTransientMsg msg then
        if attempt < maxRetries then
          let rest := retryGo model maxRetries fuel (attempt + 1) (some msg)
          (pre ++ [ .call attempt] ++ rest.1, rest.2)
        else (pre ++ [ .call attempt], .error (some msg))
      else (pre ++ [ .call attempt], .error (some msg))

/-- Model-invocation state machine: up to `maxRetries` attempts starting at
attempt 1 with no stored error. -/
def generateContentWithRetry {α : Type} (model : Nat → Except String α)
    (maxRetries : Nat := 3) : List Ev × Except (Option String) α :=
  retryGo model maxRetries maxRetries 1 none

/-- The events contributed by one attempt of the retry loop when the attempt
ends in a transient failure or is the attempt under scrutiny: the backoff
block (for retries) followed by the model invocation. -/
def attemptBlock (maxRetries k : Nat) : List Ev :=
  (if 1 < k then
    [Ev.progress (retryingMsg k maxRetries), Ev.sleep (backoffDelay k)]
  else []) ++ [Ev.call k]

/-- Number of model invocations recorded in an event list. -/
def callCount (evs : List Ev) : Nat :=
  (evs.filter (fun e => match e with | .call _ => true | _ => false)).length

/-- Structured JSON values, the result type of the external JSON parser. -/
inductive Json where
  | null : Json
  | bool (b : Bool) : Json
  | num (n : Int) : Json
  | str (s : Str) : Json
  | arr (elems : List Json) : Json
  | obj (fields : List (Str × Json)) : Json

/-- Errors of the pipeline are modelled after JavaScript Error objects with
the ad hoc fields the source attaches: a message, an optional `code`, an
optional `detectedType` label and an optional HTTP-like `status`. -/
structure JsError where
  message : String
  code : Option String := none
  detectedType : Option String := none
  status : Option Nat := none
deriving DecidableEq

/-- Read a string-valued field of a JSON object; any other shape (not an
object, missing field, non-string value) yields none, matching JavaScript
property access combined with a strict string comparison. -/
def jsonStrField (j : Json) (k : Str) : Option Str :=
  match j with
  | .obj fields =>
    match fields.find? (fun f => f.1 == k) with
    | some (_, .str s) => some s
    | _ => none
  | _ => none

/-- Split `s` at the first occurrence of `pat`, returning the part before the
occurrence and the part after it. -/
def splitAtFirst (pat : Str) : Str → Option (Str × Str)
  | [] => if pat = [] then some ([], []) else none
  | c :: rest =>
    if pat.isPrefixOf (c :: rest) then some ([], (c :: rest).drop pat.length)
    else
      match splitAtFirst pat rest with
      | some (pre, post) => some (c :: pre, post)
      | none => none

/-- Remove leading and trailing whitespace (models String.prototype.trim). -/
def trimStr (s : Str) : Str :=
  ((s.dropWhile Char.isWhitespace).reverse.dropWhile Char.isWhitespace).reverse

/-- Drop trailing whitespace only. -/
def dropTrailingWs (s : Str) : Str :=
  (s.reverse.dropWhile Char.isWhitespace).reverse

/-- Candidate JSON text of processResponse: the inner content of the first
fenced code block when one exists (an optional language tag after the opening
fence is skipped, surrounding whitespace of the content is stripped by the
pattern), otherwise the whole response text. -/
def fencedCandidate (text : Str) : Str :=
  match splitAtFirst ("```".toList) text with
  | none => text
  | some (_, rest0) =>
    let attempt : Str → Option Str := fun r =>
      let r1 := r.dropWhile Char.isWhitespace
      match splitAtFirst ("```".toList) r1 with
      | none => none
      | some (inner, _) => some (dropTrailingWs inner)
    if ("json".toList).isPrefixOf rest0 then
      match attempt (rest0.drop 4) with
      | some c => c
      | none => (attempt rest0).getD text
    else (attempt rest0).getD text

/-- Longest prefix of `s` that ends with a closing brace, if any. -/
def upToLastRBrace (s : Str) : Option Str :=
  let r := s.reverse.dropWhile (fun c => !(c = '\x7d'))
  if r = [] then none else some r.reverse

/-- Brace-extraction recovery of processResponse: the segment from the first
opening brace to the last closing brace after it (the greedy match of the
brace-to-brace pattern), if such a segment exists. -/
def braceMatch (s : Str) : Option Str :=
  match splitAtFirst [ '\x7b' ] s with
  | none => none
  | some (_, post) =>
    match upToLastRBrace post with
    | none => none
    | some m => some ('\x7b' :: m)

/-- First match of the detected-type pattern: scan for the literal
`detected:` and capture the following run of characters up to the next
closing parenthesis, with the leading-whitespace/backtracking behaviour of
the regular expression `detected:` followed by optional whitespace and a
non-empty run of non-parenthesis characters. -/
def matchDetected : Str → Option Str
  | [] => none
  | c :: rest =>
    if ("detected:".toList).isPrefixOf (c :: rest) then
      let t := (c :: rest).drop 9
      let k := t.takeWhile (fun d => !(d = ')'))
      let w := t.takeWhile Char.isWhitespace
      if k.length = 0 then matchDetected rest
      else some (k.drop (min w.length (k.length - 1)))
    else matchDetected rest

/-- Generic label used when no detected-type can be extracted. -/
def genericDetectedLabel : String := "non-academic document"

/-- Detected-type label extracted from a rejection reason: the trimmed
capture of the detected-type pattern, or the generic label when the pattern
is absent or the capture trims to the empty string. -/
def detectedTypeOf (reason : Str) : String :=
  match matchDetected reason with
  | none => genericDetectedLabel
  | some cap =>
    let t := trimStr cap
    if t = [] then genericDetectedLabel else String.mk t

/-- Default message of a model-emitted rejection without a usable reason. -/
def defaultInvalidReason : String :=
  "The file appears to be unrelated to academic coursework."

/-- The error constructed when the parsed model response carries the
rejection sentinel: message from the reason (or a default when the reason is
falsy), code INVALID_DOCUMENT, and the detected-type label extracted from the
reason text. -/
def mkInvalidDocErr (reasonField : Option Str) : JsError :=
  let r : Str := match reasonField with | some s => s | none => []
  { message := if r = [] then defaultInvalidReason else String.mk r,
    code := some "INVALID_DOCUMENT",
    detectedType := some (detectedTypeOf r) }

/-- The rejection sentinel test: the parsed value is an object whose error
field is the exact string INVALID_DOCUMENT. -/
def sentinelCheck (j : Json) : Bool :=
  decide (jsonStrField j ("error".toList) = some ("INVALID_DOCUMENT".toList))

/-- Message of the parse failure raised when even the brace-extraction
recovery cannot be parsed. -/
def parseFailureMsg : String :=
  "Failed to parse JSON response. The AI response may not be in the correct format."

/-- Response interpreter processResponse.  The strict JSON parse of the
runtime is an external dependency and enters as the `parse` parameter (its
error value is the parser's own message).  The interpreter extracts the
fenced candidate, parses the trimmed candidate, applies the sentinel check,
and on parse failure retries on the brace-extraction recovery (applying the
sentinel check there as well) before reporting a parse failure. -/
def processResponse (parse : Str → Except String Json) (text : Str) :
    Except JsError Json :=
  let jsonText := fencedCandidate text
  match parse (trimStr jsonText) with
  | .ok analysis =>
    if sentinelCheck analysis then
      .error (mkInvalidDocErr (jsonStrField analysis ("reason".toList)))
    else .ok analysis
  | .error parseErrMsg =>
    match braceMatch jsonText with
    | some b =>
      match parse b with
      | .ok analysis =>
        if sentinelCheck analysis then
          .error (mkInvalidDocErr (jsonStrField analysis ("reason".toList)))
        else .ok analysis
      | .error _ => .error { message := parseFailureMsg }
    | none => .error { message := parseErrMsg }

/-- Extraction result of one input file in the orchestrator: the decoder
outcome (page texts, or a raised decode error) is an external input; a decode
failure is tolerated by substituting the empty text, and a successful decode
is capped at 4000 characters. -/
def extractedOrEmpty (pages : Except Unit (List Str)) : Str :=
  match pages with
  | .ok ps => extractTextFromPdf ps 4000
  | .error _ => []

/-- The combined gate input: both extracted texts joined with a newline and
truncated to 8000 characters. -/
def combinedText (p1 p2 : Except Unit (List Str)) : Str :=
  (extractedOrEmpty p1 ++ '\n' :: extractedOrEmpty p2).take 8000

/-- The hard-gate rejection raised before any model call. -/
def gateError : JsError :=
  { message := "Uploaded file does not appear to be a valid Syllabus or Question Paper.",
    code := some "INVALID_DOCUMENT",
    status := some 400 }

/-- The error thrown when the model list is exhausted with no stored error. -/
def allModelsErr : JsError :=
  { message := "All models are currently unavailable. Please try again later." }

/-- High-demand classification used by the cross-model fallback: only these
substrings of a failure message make the orchestrator move to the next
model. -/
def isHighDemandMsg (m : String) : Bool :=
  containsSub ("503".toList) m.toList || containsSub ("high demand".toList) m.toList ||
    containsSub ("currently experiencing".toList) m.toList

/-- The user-facing message produced for high-demand failures. -/
def highDemandUserMsg : String :=
  "The AI model is currently experiencing high demand. Please wait a moment and try again. The app will automatically retry with fallback models."

/-- The final error funnel of the orchestrator: an INVALID_DOCUMENT error is
preserved unchanged; otherwise the message is classified by substring in
source order and replaced by one of a fixed set of user-facing messages. -/
def normalizeError (e : JsError) : JsError :=
  if e.code = some "INVALID_DOCUMENT" then e
  else
    let m := e.message.toList
    if containsSub ("timeout".toList) m then
      { message := "Request timeout: Analysis is taking longer than expected. Please try again with smaller PDFs." }
    else if containsSub ("quota".toList) m || containsSub ("429".toList) m then
      { message := "API quota exceeded. Please try again later." }
    else if containsSub ("invalid".toList) m || containsSub ("401".toList) m ||
        containsSub ("403".toList) m then
      { message := "Invalid API key or request. Please check your configuration." }
    else if containsSub ("503".toList) m || containsSub ("high demand".toList) m ||
        containsSub ("currently experiencing".toList) m then
      { message := highDemandUserMsg }
    else if containsSub ("all models".toList) m then
      { message := "All AI models are currently unavailable due to high demand. Please try again in a few minutes." }
    else
      { message := "Failed to analyze documents: " ++ e.message }

/-- The model-fallback loop of the orchestrator.  Each entry of the list is
the mock behaviour of one model (attempt number to response text or raised
message); the index `mi` tags the events of the current model in the trace.
Every model is driven through the retry machine with 3 attempts; a success is
handed to the response interpreter; a failure whose message passes the
high-demand test stores the error, waits 2000 ms and moves on to the next
model; any other failure aborts the loop.  An exhausted list rethrows the
stored error, or the all-models error when none was stored. -/
def orchLoop (parse : Str → Except String Json) :
    List (Nat → Except String String) → Nat → Option JsError →
      List (Nat × Ev) × Except JsError Json
  | [], _, lastError => ([], .error (lastError.getD allModelsErr))
  | mock :: rest, mi, _ =>
    let r := generateContentWithRetry mock 3
    let tagged := r.1.map (fun e => (mi, e))
    match r.2 with
    | .ok text =>
      match processResponse parse text.toList with
      | .ok analysis => (tagged, .ok analysis)
      | .error e =>
        if isHighDemandMsg e.message then
          let next := orchLoop parse rest (mi + 1) (some e)
          (tagged ++ (mi, Ev.sleep 2000) :: next.1, next.2)
        else (tagged, .error e)
    | .error msg =>
      let e : JsError := { message := msg.getD "undefined" }
      if isHighDemandMsg e.message then
        let next := orchLoop parse rest (mi + 1) (some e)
        (tagged ++ (mi, Ev.sleep 2000) :: next.1, next.2)
      else (tagged, .error e)

/-- Strategy orchestrator analyzeExamStrategy: extract both files (tolerating
individual decode failures), run the hard gate on the combined text and raise
the gate error before any model call when it fails, otherwise run the model
fallback loop; every error leaving the orchestrator passes through the final
normalization funnel. -/
def analyzeExamStrategy (parse : Str → Except String Json)
    (p1 p2 : Except Unit (List Str)) (mocks : List (Nat → Except String String)) :
    List (Nat × Ev) × Except JsError Json :=
  let r :=
    if (validateDocumentContent (combinedText p1 p2)).passed then
      orchLoop parse mocks 0 none
    else (([] : List (Nat × Ev)), .error gateError)
  (r.1, r.2.mapError normalizeError)

/-- Skip leading whitespace. -/
def skipWs (s : Str) : Str := s.dropWhile Char.isWhitespace

/-- String-literal body of the JSON parser model: consume characters up to
the closing quote (escape sequences are outside the modelled fragment). -/
def parseStringBody : Str → Option (Str × Str)
  | [] => none
  | c :: rest =>
    if c = '"' then some ([], rest)
    else
      match parseStringBody rest with
      | some (s, r) => some (c :: s, r)
      | none => none

mutual

/-- One JSON value.  This is a model of the strict JSON parser of the
JavaScript runtime (an external dependency of the repository), restricted to
the fragment without escape sequences and with integer numbers; the fuel
bounds the nesting depth. -/
def parseVal : Nat → Str → Option (Json × Str)
  | 0, _ => none
  | fuel + 1, s =>
    match skipWs s with
    | [] => none
    | c :: rest =>
      if c = '"' then
        match parseStringBody rest with
        | some (str, r) => some (Json.str str, r)
        | none => none
      else if c = '\x7b' then
        match skipWs rest with
        | '\x7d' :: r => some (Json.obj [], r)
        | r => match parseFields fuel r with
          | some (fs, r2) => some (Json.obj fs, r2)
          | none => none
      else if c = '[' then
        match skipWs rest with
        | ']' :: r => some (Json.arr [], r)
        | r => match parseElems fuel r with
          | some (es, r2) => some (Json.arr es, r2)
          | none => none
      else if c = 't' then
        if ("rue".toList).isPrefixOf rest then some (Json.bool true, rest.drop 3) else none
      else if c = 'f' then
        if ("alse".toList).isPrefixOf rest then some (Json.bool false, rest.drop 4) else none
      else if c = 'n' then
        if ("ull".toList).isPrefixOf rest then some (Json.null, rest.drop 3) else none
      else if c = '-' then
        match rest.takeWhile Char.isDigit with
        | [] => none
        | ds => some (Json.num (-(String.mk ds).toNat!), rest.dropWhile Char.isDigit)
      else if c.isDigit then
        let ds := (c :: rest).takeWhile Char.isDigit
        some (Json.num ((String.mk ds).toNat!), (c :: rest).dropWhile Char.isDigit)
      else none

/-- Members of a JSON object after the opening brace (non-empty case). -/
def parseFields : Nat → Str → Option (List (Str × Json) × Str)
  | 0, _ => none
  | fuel + 1, s =>
    match skipWs s with
    | '"' :: rest =>
      match parseStringBody rest with
      | none => none
      | some (key, r1) =>
        match skipWs r1 with
        | ':' :: r2 =>
          match parseVal fuel r2 with
          | none => none
          | some (v, r3) =>
            match skipWs r3 with
            | ',' :: r4 =>
              match parseFields fuel r4 with
              | some (fs, r5) => some ((key, v) :: fs, r5)
              | none => none
            | '\x7d' :: r4 => some ([(key, v)], r4)
            | _ => none
        | _ => none
    | _ => none

/-- Elements of a JSON array after the opening bracket (non-empty case). -/
def parseElems : Nat → Str → Option (List Json × Str)
  | 0, _ => none
  | fuel + 1, s =>
    match parseVal fuel s with
    | none => none
    | some (v, r1) =>
      match skipWs r1 with
      | ',' :: r2 =>
        match parseElems fuel r2 with
        | some (es, r3) => some (v :: es, r3)
        | none => none
      | ']' :: r2 => some ([v], r2)
      | _ => none

end

/-- Model of the JSON.parse runtime builtin on the fragment used by the
pipeline: a single value followed only by whitespace. -/
def jsonParseModel (s : Str) : Except String Json :=
  match parseVal (s.length + 1) s with
  | some (j, rest) =>
    if skipWs rest = [] then .ok j else .error "Unexpected non-whitespace character after JSON"
  | none => .error "Unexpected token in JSON"

/-- Component state of the upload gate: the accepted file slot of the parent,
the pending file held behind the warning, and the warning flag. -/
structure GateState where
  file : Option Str
  pendingFile : Option Str
  showAcademicWarning : Bool
deriving DecidableEq

/-- Suffix test (models String.prototype.endsWith). -/
def endsWithStr (suffix s : Str) : Bool := suffix.reverse.isPrefixOf s.reverse

/-- Upload gate validateAndSetFile: nothing happens without a selection; a
non-PDF file name clears the slot; otherwise the pending state is reset and
the prefix extraction outcome (an external input: extracted text or a raised
decode error) decides between immediate acceptance, the overridable warning,
and the fail-open acceptance on extraction failure. -/
def validateAndSetFile (s : GateState) (selected : Option Str)
    (extraction : Except Unit Str) : GateState :=
  match selected with
  | none => s
  | some nm =>
    if !endsWithStr (".pdf".toList) (toLowerStr nm) then { s with file := none }
    else
      let s1 : GateState := { s with showAcademicWarning := false, pendingFile := none }
      match extraction with
      | .error _ => { s1 with file := some nm }
      | .ok text =>
        if hasMinimumAcademicKeywords text 1000 2 then { s1 with file := some nm }
        else { s1 with pendingFile := some nm, showAcademicWarning := true }

/-- Confirming the warning accepts the pending file as-is. -/
def handleConfirmAnyway (s : GateState) : GateState :=
  match s.pendingFile with
  | some p => { file := some p, pendingFile := none, showAcademicWarning := false }
  | none => s

/-- Cancelling the warning discards the pending file and clears the slot. -/
def handleCancelWarning (_ : GateState) : GateState :=
  { file := none, pendingFile := none, showAcademicWarning := false }

/-- One topic of an analysis result, as rendered by the export. -/
structure Topic where
  name : String
  confidence : Int
  effort : String
  reward : String
  frequency : Int
  keyConcepts : List String
  priority : Option String
deriving DecidableEq

/-- Summary block of an analysis result. -/
structure Summary where
  totalTopics : Int
  highPriorityCount : Int
  lowEffortHighReward : Int
deriving DecidableEq

/-- An analysis result: topics plus an optional summary. -/
structure AnalysisResult where
  topics : List Topic
  summary : Option Summary
deriving DecidableEq

/-- Comparator of the export sort: descending confidence. -/
def confGE (x y : Topic) : Prop := y.confidence ≤ x.confidence

instance : DecidableRel confGE :=
  fun x y => inferInstanceAs (Decidable (y.confidence ≤ x.confidence))

instance : IsTotal Topic confGE :=
  ⟨fun x y => (le_total y.confidence x.confidence).elim Or.inl Or.inr⟩

instance : IsTrans Topic confGE :=
  ⟨fun _ _ _ hab hbc => le_trans hbc hab⟩

/-- Topics sorted by confidence descending.  The source uses the stable sort
of the JavaScript runtime with the comparator subtracting confidences; a
stable insertion sort with the same ordering produces the identical list. -/
def sortedTopics (a : AnalysisResult) : List Topic :=
  List.insertionSort confGE a.topics

/-- The decorated low-effort high-reward marker line. -/
def markerLine : String := "- ⭐ **Low Effort, High Reward Topic**\n"

/-- The lines appended for one topic section, in source order: heading,
confidence, effort, reward, frequency, then the conditional priority,
key-concepts and marker lines, then a blank line. -/
def topicLines (i : Nat) (t : Topic) : List String :=
  [ "### " ++ (toString (i + 1) ++ (". " ++ (t.name ++ "\n\n"))),
    "- **Confidence Score:** " ++ (toString t.confidence ++ "%\n"),
    "- **Effort Level:** " ++ (t.effort ++ "\n"),
    "- **Reward Level:** " ++ (t.reward ++ "\n"),
    "- **Frequency:** " ++ (toString t.frequency ++ " times\n")]
  ++ (if t.priority.getD "" = "" then []
      else [ "- **Priority:** " ++ (t.priority.getD "" ++ "\n")])
  ++ (if t.keyConcepts = [] then []
      else [ "- **Key Concepts:** " ++ (String.intercalate ", " t.keyConcepts ++ "\n")])
  ++ (if t.effort = "Low" ∧ t.reward = "High" then [markerLine] else [])
  ++ [ "\n"]

/-- One rendered topic section. -/
def topicSection (i : Nat) (t : Topic) : String := String.join (topicLines i t)

/-- The summary block of the export, present only when the result carries a
summary. -/
def summaryBlock : Option Summary → String
  | none => ""
  | some s =>
    "## Summary\n\n" ++
      ("- **Total Topics:** " ++ (toString s.totalTopics ++ "\n")) ++
      ("- **High Priority Topics:** " ++ (toString s.highPriorityCount ++ "\n")) ++
      ("- **Low Effort, High Reward Topics:** " ++ (toString s.lowEffortHighReward ++ "\n\n"))

/-- Markdown export of an analysis result.  The generation date of the source
comes from the wall clock; it is an explicit input here. -/
def exportToMarkdown (dateStr : String) (a : AnalysisResult) : String :=
  "# NITP Exam Priority List\n\n" ++
    ("*Generated on " ++ (dateStr ++ "*\n\n")) ++
    summaryBlock a.summary ++
    "## Priority List\n\n" ++
    String.join ((sortedTopics a).enum.map (fun p => topicSection p.1 p.2))

/-- The pass flag of the gatekeeper, characterized with integer arithmetic
only (no rational division): the density test `score ≥ 0.3` is equivalent to
`3 * wordCount ≤ 1000 * occurrences` for non-empty word counts. -/
theorem validateDocumentContent_passed_iff (t : Str) :
    (validateDocumentContent t).passed = true ↔
      t ≠ [] ∧ 2 ≤ (countKeywordsInText t).count ∧ 0 < wordCount t ∧
        3 * wordCount t ≤ 1000 * keywordOccurrences t := by
  by_cases h : t = []
  · subst h
    simp [validateDocumentContent]
  · simp only [validateDocumentContent, if_neg h, Bool.and_eq_true, decide_eq_true_iff]
    have hcast : ((0 : ℚ) < (wordCount t : ℚ)) ↔ 0 < wordCount t := by exact_mod_cast Iff.rfl
    constructor
    · rintro ⟨h2, h3⟩
      have hwc : 0 < wordCount t := by
        by_contra hwc
        rw [if_neg hwc] at h3
        norm_num at h3
      refine ⟨h, h2, hwc, ?_⟩
      rw [if_pos hwc, le_min_iff, div_mul_eq_mul_div,
        le_div_iff₀ (hcast.mpr hwc)] at h3
      have h4 := h3.2
      have h5 : (3 : ℚ) * (wordCount t : ℚ) ≤ 1000 * (keywordOccurrences t : ℚ) := by
        linarith
      exact_mod_cast h5
    · rintro ⟨-, h2, hwc, h3⟩
      refine ⟨h2, ?_⟩
      rw [if_pos hwc, le_min_iff, div_mul_eq_mul_div,
        le_div_iff₀ (hcast.mpr hwc)]
      have h5 : (3 : ℚ) * (wordCount t : ℚ) ≤ 1000 * (keywordOccurrences t : ℚ) := by
        exact_mod_cast h3
      constructor
      · norm_num
      · linarith

/-- Convenience form for establishing that a concrete text passes the gate. -/
theorem validateDocumentContent_passed_of (t : Str)
    (h : t ≠ [] ∧ 2 ≤ (countKeywordsInText t).count ∧ 0 < wordCount t ∧
      3 * wordCount t ≤ 1000 * keywordOccurrences t) :
    (validateDocumentContent t).passed = true :=
  (validateDocumentContent_passed_iff t).mpr h

/-- Convenience form for establishing that a concrete text fails the gate. -/
theorem validateDocumentContent_not_passed_of (t : Str)
    (h : ¬(t ≠ [] ∧ 2 ≤ (countKeywordsInText t).count ∧ 0 < wordCount t ∧
      3 * wordCount t ≤ 1000 * keywordOccurrences t)) :
    (validateDocumentContent t).passed = false := by
  rw [Bool.eq_false_iff]
  intro hc
  exact h ((validateDocumentContent_passed_iff t).mp hc)

/-- The boolean substring scan agrees with the contiguous-sublist relation. -/
theorem containsSub_infix_iff (pat s : Str) : containsSub pat s = true ↔ pat <:+: s := by
  induction s with
  | nil =>
    simp [containsSub, List.isPrefixOf_iff_prefix]
  | cons c rest ih =>
    simp only [containsSub, Bool.or_eq_true, List.isPrefixOf_iff_prefix, ih,
      List.infix_cons_iff]

/-- Unfolding of the retry loop for a successful attempt. -/
theorem retryGo_ok {α : Type} (model : Nat → Except String α) (maxRetries fuel attempt : Nat)
    (last : Option String) (r : α) (hm : model attempt = .ok r) :
    retryGo model maxRetries (fuel + 1) attempt last =
      ((if 1 < attempt then
          [Ev.progress (retryingMsg attempt maxRetries), Ev.sleep (backoffDelay attempt)]
        else []) ++ [Ev.call attempt], .ok r) := by
  simp [retryGo, hm]

/-- Unfolding of the retry loop for a fatally classified failure: the error is
rethrown at once, whatever the remaining budget. -/
theorem retryGo_fatal {α : Type} (model : Nat → Except String α) (maxRetries fuel attempt : Nat)
    (last : Option String) (e : String) (hm : model attempt = .error e)
    (hf : isFatalMsg e = true) :
    retryGo model maxRetries (fuel + 1) attempt last =
      ((if 1 < attempt then
          [Ev.progress (retryingMsg attempt maxRetries), Ev.sleep (backoffDelay attempt)]
        else []) ++ [Ev.call attempt], .error (some e)) := by
  simp [retryGo, hm, hf]

/-- Unfolding of the retry loop for a transiently classified failure with
attempts remaining: the loop continues with the next attempt. -/
theorem retryGo_transient_cont {α : Type} (model : Nat → Except String α)
    (maxRetries fuel attempt : Nat) (last : Option String) (e : String)
    (hm : model attempt = .error e) (hf : isFatalMsg e = false)
    (ht : isTransientMsg e = true) (hlt : attempt < maxRetries) :
    retryGo model maxRetries (fuel + 1) attempt last =
      ((if 1 < attempt then
          [Ev.progress (retryingMsg attempt maxRetries), Ev.sleep (backoffDelay attempt)]
        else []) ++ [Ev.call attempt] ++
          (retryGo model maxRetries fuel (attempt + 1) (some e)).1,
       (retryGo model maxRetries fuel (attempt + 1) (some e)).2) := by
  simp [retryGo, hm, hf, ht, hlt]

/-- Unfolding of the retry loop for a transiently classified failure on the
final permitted attempt: the error is surfaced. -/
theorem retryGo_transient_last {α : Type} (model : Nat → Except String α)
    (maxRetries fuel attempt : Nat) (last : Option String) (e : String)
    (hm : model attempt = .error e) (hf : isFatalMsg e = false)
    (ht : isTransientMsg e = true) (hge : ¬ attempt < maxRetries) :
    retryGo model maxRetries (fuel + 1) attempt last =
      ((if 1 < attempt then
          [Ev.progress (retryingMsg attempt maxRetries), Ev.sleep (backoffDelay attempt)]
        else []) ++ [Ev.call attempt], .error (some e)) := by
  simp [retryGo, hm, hf, ht, hge]

/-- When every remaining attempt fails transiently, the retry loop performs
exactly one backoff block per attempt and surfaces the error of the final
attempt. -/
theorem retryGo_all_transient {α : Type} (model : Nat → Except String α) (maxR : Nat)
    (e : Nat → String) :
    ∀ (fuel attempt : Nat) (last : Option String),
      attempt + fuel = maxR + 1 → 1 ≤ attempt → attempt ≤ maxR →
      (∀ k, attempt ≤ k → k ≤ maxR →
        model k = .error (e k) ∧ isFatalMsg (e k) = false ∧ isTransientMsg (e k) = true) →
      retryGo model maxR fuel attempt last =
        (((List.range' attempt fuel).map (attemptBlock maxR)).flatten,
         .error (some (e maxR))) := by
  intro fuel
  induction fuel with
  | zero =>
    intro attempt last h1 h2 h3 _
    omega
  | succ f ih =>
    intro attempt last h1 h2 h3 hmod
    obtain ⟨hm, hf, ht⟩ := hmod attempt le_rfl h3
    by_cases hlt : attempt < maxR
    · rw [retryGo_transient_cont model maxR f attempt last (e attempt) hm hf ht hlt,
        ih (attempt + 1) (some (e attempt)) (by omega) (by omega) (by omega)
          (fun k hk1 hk2 => hmod k (by omega) hk2)]
      simp [List.range'_succ, attemptBlock]
    · have heq : attempt = maxR := by omega
      have hf0 : f = 0 := by omega
      subst hf0
      rw [retryGo_transient_last model maxR 0 attempt last (e attempt) hm hf ht hlt]
      subst heq
      simp [List.range'_succ, attemptBlock]

/-- The page loop never exceeds the character budget. -/
theorem extractPages_length_le (maxChars : Nat) :
    ∀ (pages : List Str) (acc : Str), (extractPages maxChars pages acc).length ≤ maxChars := by
  intro pages
  induction pages with
  | nil =>
    intro acc
    simp [extractPages]
  | cons p ps ih =>
    intro acc
    rw [extractPages]
    split
    · exact ih _
    · simp

/-- Fallback-loop unfolding: a model failure whose message passes the
high-demand test stores the error, waits 2000 ms and continues with the next
model from a fresh attempt counter. -/
theorem orchLoop_highDemand_next (parse : Str → Except String Json)
    (mock : Nat → Except String String) (rest : List (Nat → Except String String))
    (mi : Nat) (last : Option JsError) (e : String)
    (hr : (generateContentWithRetry mock 3).2 = .error (some e))
    (hh : isHighDemandMsg e = true) :
    orchLoop parse (mock :: rest) mi last =
      ((generateContentWithRetry mock 3).1.map (fun ev => (mi, ev)) ++
          (mi, Ev.sleep 2000) :: (orchLoop parse rest (mi + 1) (some { message := e })).1,
        (orchLoop parse rest (mi + 1) (some { message := e })).2) := by
  rw [orchLoop]
  rw [hr]
  simp [hh]

/-- Fallback-loop unfolding: a model failure whose message fails the
high-demand test aborts the loop without touching the remaining models. -/
theorem orchLoop_abort (parse : Str → Except String Json)
    (mock : Nat → Except String String) (rest : List (Nat → Except String String))
    (mi : Nat) (last : Option JsError) (e : String)
    (hr : (generateContentWithRetry mock 3).2 = .error (some e))
    (hh : isHighDemandMsg e = false) :
    orchLoop parse (mock :: rest) mi last =
      ((generateContentWithRetry mock 3).1.map (fun ev => (mi, ev)),
        .error { message := e }) := by
  rw [orchLoop]
  rw [hr]
  simp [hh]

/-- Fallback-loop unfolding: a successful model response that the interpreter
accepts ends the loop with that analysis. -/
theorem orchLoop_success (parse : Str → Except String Json)
    (mock : Nat → Except String String) (rest : List (Nat → Except String String))
    (mi : Nat) (last : Option JsError) (t : String) (analysis : Json)
    (hr : (generateContentWithRetry mock 3).2 = .ok t)
    (hp : processResponse parse t.toList = .ok analysis) :
    orchLoop parse (mock :: rest) mi last =
      ((generateContentWithRetry mock 3).1.map (fun ev => (mi, ev)), .ok analysis) := by
  have hp2 : processResponse parse t.data = Except.ok analysis := hp
  rw [orchLoop]
  rw [hr]
  simp [hp2]

/-- Fallback-loop exhaustion rethrows the stored error. -/
theorem orchLoop_exhausted (parse : Str → Except String Json) (mi : Nat) (err : JsError) :
    orchLoop parse [] mi (some err) = ([], .error err) := rfl

/-- String-level prefix separation: a string starting with `s` differs from
`markerLine` when the first `k` characters already differ. -/
theorem string_append_ne_marker (s t : String) (k : Nat) (hk : k ≤ s.data.length)
    (h : s.data.take k ≠ markerLine.data.take k) : s ++ t ≠ markerLine := by
  intro he
  have hd := congrArg String.data he
  rw [String.data_append] at hd
  have h2 : (s.data ++ t.data).take k = markerLine.data.take k := by rw [hd]
  rw [List.take_append_of_le_length hk] at h2
  exact h h2

/-- The decorated marker line occurs among the rendered lines of a topic
section exactly when the topic is low-effort and high-reward. -/
theorem markerLine_mem_topicLines_iff (i : Nat) (t : Topic) :
    markerLine ∈ topicLines i t ↔ (t.effort = "Low" ∧ t.reward = "High") := by
  have l1 : ∀ x : String, "### " ++ x ≠ markerLine := fun x =>
    string_append_ne_marker _ x 1 (by decide) (by decide)
  have l2 : ∀ x : String, "- **Confidence Score:** " ++ x ≠ markerLine := fun x =>
    string_append_ne_marker _ x 3 (by decide) (by decide)
  have l3 : ∀ x : String, "- **Effort Level:** " ++ x ≠ markerLine := fun x =>
    string_append_ne_marker _ x 3 (by decide) (by decide)
  have l4 : ∀ x : String, "- **Reward Level:** " ++ x ≠ markerLine := fun x =>
    string_append_ne_marker _ x 3 (by decide) (by decide)
  have l5 : ∀ x : String, "- **Frequency:** " ++ x ≠ markerLine := fun x =>
    string_append_ne_marker _ x 3 (by decide) (by decide)
  have l6 : ∀ x : String, "- **Priority:** " ++ x ≠ markerLine := fun x =>
    string_append_ne_marker _ x 3 (by decide) (by decide)
  have l7 : ∀ x : String, "- **Key Concepts:** " ++ x ≠ markerLine := fun x =>
    string_append_ne_marker _ x 3 (by decide) (by decide)
  have l8 : ("\n" : String) ≠ markerLine := by decide
  constructor
  · intro h
    by_cases hc : t.effort = "Low" ∧ t.reward = "High"
    · exact hc
    · exfalso
      have hIf : ∀ cond : Prop, ∀ inst : Decidable cond, ∀ x : String,
          markerLine ∈ (if cond then ([] : List String) else [x]) → markerLine = x := by
        intro cond inst x hmem
        rcases Classical.em cond with hcond | hcond
        · rw [if_pos hcond] at hmem
          exact absurd hmem (List.not_mem_nil _)
        · rw [if_neg hcond] at hmem
          exact List.mem_singleton.mp hmem
      simp only [topicLines, List.mem_append, List.mem_cons, List.not_mem_nil, or_false,
        false_or] at h
      rcases h with ((((h | h | h | h | h) | hP) | hK) | hM) | h
      · exact l1 _ h.symm
      · exact l2 _ h.symm
      · exact l3 _ h.symm
      · exact l4 _ h.symm
      · exact l5 _ h.symm
      · exact l6 _ (hIf _ _ _ hP).symm
      · exact l7 _ (hIf _ _ _ hK).symm
      · rw [if_neg hc] at hM
        exact List.not_mem_nil _ hM
      · exact l8 h.symm
  · intro hc
    simp [topicLines, if_pos hc]

/-- Claim C2: for every string, the density check returns
densityScore = min(100, 100 * totalOccurrences / wordCount) with wordCount the
number of whitespace-delimited non-empty tokens (score 0 when there are no
words, never dividing by zero), and passed holds iff at least 2 distinct
keywords are present and the density score is at least 0.3; the empty string
yields score 0 and passed = false, and the seed text
"syllabus unit marks exam exam exam" passes with at least 4 distinct
keywords. -/
theorem validateDocumentContent_spec :
    (∀ t : Str,
      (validateDocumentContent t).score =
        (if 0 < wordCount t then
          min 100 (100 * ((validateDocumentContent t).keywordCount : ℚ) / (wordCount t : ℚ))
        else 0) ∧
      ((validateDocumentContent t).passed = true ↔
        2 ≤ (validateDocumentContent t).distinctKeywords ∧
          (3 / 10 : ℚ) ≤ (validateDocumentContent t).score)) ∧
    validateDocumentContent [] = ⟨0, false, 0, 0⟩ ∧
    ((validateDocumentContent ("syllabus unit marks exam exam exam".toList)).passed = true ∧
      4 ≤ (validateDocumentContent
        ("syllabus unit marks exam exam exam".toList)).distinctKeywords) := by
  refine ⟨?_, rfl, validateDocumentContent_passed_of _ (by decide), by decide⟩
  intro t
  by_cases h : t = []
  · subst h
    refine ⟨by simp [validateDocumentContent, wordCount, wordCountAux], ?_⟩
    simp only [validateDocumentContent, if_pos rfl]
    norm_num
  · simp only [validateDocumentContent, if_neg h]
    constructor
    · split
      · exact congrArg (min 100) (by ring)
      · rfl
    · simp [Bool.and_eq_true, decide_eq_true_iff]

/-- Claim C7: the quick check passes exactly when at least minDistinct
vocabulary keywords occur case-insensitively as substrings of the first
prefixChars characters (the boolean substring scan coincides with the
contiguous-sublist relation), and a text whose keywords all sit after
character 5000 fails the check with a 1000-character window. -/
theorem hasMinimumAcademicKeywords_spec :
    (∀ (text : Str) (n m : Nat),
      hasMinimumAcademicKeywords text n m = true ↔
        m ≤ (ACADEMIC_KEYWORDS.filter
          (fun kw => containsSub kw (toLowerStr (text.take n)))).length) ∧
    (∀ pat s, containsSub pat s = true ↔ pat <:+: s) ∧
    hasMinimumAcademicKeywords
      (List.replicate 5000 'z' ++ "syllabus university exam marks unit question".toList)
      1000 2 = false := by
  refine ⟨?_, containsSub_infix_iff, ?_⟩
  · intro text n m
    simp only [hasMinimumAcademicKeywords, countKeywordsInText, decide_eq_true_iff]
  · have htake :
        ((List.replicate 5000 'z' ++
          "syllabus university exam marks unit question".toList).take 1000)
          = List.replicate 1000 'z' := by
      rw [List.take_append_of_le_length
        (by rw [List.length_replicate]; norm_num), List.take_replicate]
      norm_num
    have hlower : toLowerStr (List.replicate 1000 'z') = List.replicate 1000 'z' := by
      simp [toLowerStr, List.map_replicate]
    have hnokw : ∀ kw ∈ ACADEMIC_KEYWORDS,
        ¬ (containsSub kw (List.replicate 1000 'z') = true) := by
      intro kw hkw hc
      have hinf := (containsSub_infix_iff kw (List.replicate 1000 'z')).mp hc
      obtain ⟨hne, hx⟩ :=
        (show ∀ kw ∈ ACADEMIC_KEYWORDS, kw ≠ [] ∧ 'z' ∉ kw by decide) kw hkw
      obtain ⟨d, hd⟩ := List.exists_mem_of_ne_nil kw hne
      exact hx ((List.eq_of_mem_replicate (hinf.subset hd)) ▸ hd)
    rw [show hasMinimumAcademicKeywords
        (List.replicate 5000 'z' ++ "syllabus university exam marks unit question".toList)
        1000 2 = decide (2 ≤ (countKeywordsInText ((List.replicate 5000 'z' ++
          "syllabus university exam marks unit question".toList).take 1000)).count) from rfl,
      htake]
    simp only [countKeywordsInText, hlower]
    rw [List.filter_eq_nil_iff.mpr hnokw]
    decide

/-- Claim C8: a selected PDF whose extracted prefix fails the quick keyword
check is held pending behind an overridable warning, where confirming accepts
the file and cancelling clears the slot; a failed extraction accepts the file
immediately with no warning. -/
theorem validateAndSetFile_spec :
    ∀ (s : GateState) (nm text : Str),
      endsWithStr (".pdf".toList) (toLowerStr nm) = true →
      ((hasMinimumAcademicKeywords text 1000 2 = false →
        validateAndSetFile s (some nm) (.ok text) =
          { file := s.file, pendingFile := some nm, showAcademicWarning := true } ∧
        handleConfirmAnyway
            { file := s.file, pendingFile := some nm, showAcademicWarning := true } =
          { file := some nm, pendingFile := none, showAcademicWarning := false } ∧
        handleCancelWarning
            { file := s.file, pendingFile := some nm, showAcademicWarning := true } =
          { file := none, pendingFile := none, showAcademicWarning := false }) ∧
      validateAndSetFile s (some nm) (.error ()) =
        { file := some nm, pendingFile := none, showAcademicWarning := false }) := by
  intro s nm text hpdf
  constructor
  · intro hq
    refine ⟨?_, rfl, rfl⟩
    simp only [validateAndSetFile]
    rw [hpdf, hq]
    rfl
  · simp only [validateAndSetFile]
    rw [hpdf]
    rfl

/-- Witness for C8: a gate state holding nothing, a PDF name, and a text with
no academic keywords. -/
theorem validateAndSetFile_witness :
    validateAndSetFile ⟨none, none, false⟩ (some ("doc.pdf".toList))
        (.ok ("nothing to see here".toList)) =
      { file := none, pendingFile := some ("doc.pdf".toList), showAcademicWarning := true } ∧
    validateAndSetFile ⟨none, none, false⟩ (some ("doc.pdf".toList)) (.error ()) =
      { file := some ("doc.pdf".toList), pendingFile := none, showAcademicWarning := false } :=
  ⟨((validateAndSetFile_spec ⟨none, none, false⟩ ("doc.pdf".toList)
      ("nothing to see here".toList) (by decide)).1 (by decide)).1,
   (validateAndSetFile_spec ⟨none, none, false⟩ ("doc.pdf".toList)
      ("nothing to see here".toList) (by decide)).2⟩

/-- Claim C4: on every attempt of the retry loop, an error whose message
carries a fatal substring is rethrown immediately with no further attempts,
whatever budget remains and whatever error is stored; in particular a
first-attempt failure containing 401 means exactly one attempt and no
backoff wait. -/
theorem generateContentWithRetry_fatal_spec :
    (∀ (model : Nat → Except String String) (maxRetries fuel attempt : Nat)
        (last : Option String) (e : String),
      model attempt = .error e → isFatalMsg e = true →
      retryGo model maxRetries (fuel + 1) attempt last =
        ((if 1 < attempt then
            [Ev.progress (retryingMsg attempt maxRetries), Ev.sleep (backoffDelay attempt)]
          else []) ++ [Ev.call attempt], .error (some e))) ∧
    (∀ (model : Nat → Except String String) (maxRetries : Nat) (e : String),
      1 ≤ maxRetries → model 1 = .error e → isFatalMsg e = true →
      generateContentWithRetry model maxRetries = ([Ev.call 1], .error (some e))) := by
  constructor
  · intro model maxR fuel attempt last e hm hf
    exact retryGo_fatal model maxR fuel attempt last e hm hf
  · intro model maxR e h1 hm hf
    obtain ⟨m, rfl⟩ : ∃ m, maxR = m + 1 := ⟨maxR - 1, by omega⟩
    have s1 : generateContentWithRetry model (m + 1) =
        retryGo model (m + 1) (m + 1) 1 none := rfl
    rw [s1, retryGo_fatal model (m + 1) m 1 none e hm hf]
    simp

/-- Witness for C4: a fatal 401 failure on attempt 2 reached after a
transient 503 failure on attempt 1 ends the whole run at the second call,
and a model failing immediately with 401 makes exactly one attempt with no
backoff wait. -/
theorem generateContentWithRetry_fatal_witness :
    generateContentWithRetry
        (fun n => if n = 1 then (Except.error "503" : Except String String)
          else Except.error "401 Unauthorized") 3 =
      ([Ev.call 1, Ev.progress "Retrying... (Attempt 2/3)", Ev.sleep 1000, Ev.call 2],
       .error (some "401 Unauthorized")) ∧
    generateContentWithRetry
        (fun _ => (Except.error "401 Unauthorized" : Except String String)) 3 =
      ([Ev.call 1], .error (some "401 Unauthorized")) := by
  constructor
  · have s1 : generateContentWithRetry
        (fun n => if n = 1 then (Except.error "503" : Except String String)
          else Except.error "401 Unauthorized") 3 =
        retryGo (fun n => if n = 1 then (Except.error "503" : Except String String)
          else Except.error "401 Unauthorized") 3 (2 + 1) 1 none := rfl
    rw [s1, retryGo_transient_cont _ 3 2 1 none "503" rfl (by decide) (by decide) (by norm_num),
      generateContentWithRetry_fatal_spec.1 _ 3 1 (1 + 1) (some "503") "401 Unauthorized"
        rfl (by decide)]
    rfl
  · exact generateContentWithRetry_fatal_spec.2 _ 3 "401 Unauthorized" (by norm_num) rfl
      (by decide)

/-- Claim C10: a message containing both a fatal and a transient substring is
classified fatal on every attempt of the retry loop: the error is rethrown
immediately with no further attempts and no backoff wait beyond the one
already owed to the current attempt. -/
theorem retryGo_fatal_precedence :
    ∀ (model : Nat → Except String String) (maxRetries fuel attempt : Nat)
      (last : Option String) (e : String),
      model attempt = .error e → isFatalMsg e = true → isTransientMsg e = true →
      retryGo model maxRetries (fuel + 1) attempt last =
        ((if 1 < attempt then
            [Ev.progress (retryingMsg attempt maxRetries), Ev.sleep (backoffDelay attempt)]
          else []) ++ [Ev.call attempt], .error (some e)) := by
  intro model maxR fuel attempt last e hm hf _
  exact retryGo_fatal model maxR fuel attempt last e hm hf

/-- Witness for C10: a message carrying both the fatal substring invalid and
the transient substring 503, raised on attempt 2. -/
theorem retryGo_fatal_precedence_witness :
    retryGo (fun _ => (Except.error "invalid request after 503" : Except String String))
        3 (2 + 1) 2 none =
      ([Ev.progress (retryingMsg 2 3), Ev.sleep (backoffDelay 2), Ev.call 2],
       .error (some "invalid request after 503")) := by
  rw [retryGo_fatal_precedence _ 3 2 2 none "invalid request after 503" rfl
    (by decide) (by decide)]
  rfl

/-- Claim C3: transiently classified errors are retried up to the attempt
budget, each retry preceded by a progress report and a capped exponential
backoff wait; two transient failures followed by a success mean exactly three
attempts and the success is returned; when every attempt fails transiently
the error of the final attempt is surfaced. -/
theorem generateContentWithRetry_transient_spec :
    (∀ (model : Nat → Except String String) (e1 e2 r : String),
      model 1 = .error e1 → isFatalMsg e1 = false → isTransientMsg e1 = true →
      model 2 = .error e2 → isFatalMsg e2 = false → isTransientMsg e2 = true →
      model 3 = .ok r →
      generateContentWithRetry model 3 =
        ([Ev.call 1, Ev.progress "Retrying... (Attempt 2/3)", Ev.sleep 1000, Ev.call 2,
          Ev.progress "Retrying... (Attempt 3/3)", Ev.sleep 2000, Ev.call 3], .ok r)) ∧
    (∀ (model : Nat → Except String String) (maxRetries : Nat) (e : Nat → String),
      1 ≤ maxRetries →
      (∀ k, 1 ≤ k → k ≤ maxRetries →
        model k = .error (e k) ∧ isFatalMsg (e k) = false ∧ isTransientMsg (e k) = true) →
      generateContentWithRetry model maxRetries =
        (((List.range' 1 maxRetries).map (attemptBlock maxRetries)).flatten,
         .error (some (e maxRetries)))) ∧
    (∀ k, backoffDelay k = min (1000 * 2 ^ (k - 2)) 10000) := by
  refine ⟨?_, ?_, fun _ => rfl⟩
  · intro model e1 e2 r hm1 hf1 ht1 hm2 hf2 ht2 hm3
    have s1 : generateContentWithRetry model 3 = retryGo model 3 (2 + 1) 1 none := rfl
    rw [s1, retryGo_transient_cont model 3 2 1 none e1 hm1 hf1 ht1 (by norm_num)]
    have s2 : retryGo model 3 2 (1 + 1) (some e1) =
        retryGo model 3 (1 + 1) (1 + 1) (some e1) := rfl
    rw [s2, retryGo_transient_cont model 3 1 (1 + 1) (some e1) e2 hm2 hf2 ht2 (by norm_num)]
    have s3 : retryGo model 3 1 (1 + 1 + 1) (some e2) =
        retryGo model 3 (0 + 1) (1 + 1 + 1) (some e2) := rfl
    rw [s3, retryGo_ok model 3 0 (1 + 1 + 1) (some e2) r hm3]
    rfl
  · intro model maxR e h1 hmod
    have s1 : generateContentWithRetry model maxR = retryGo model maxR maxR 1 none := rfl
    rw [s1, retryGo_all_transient model maxR e maxR 1 none (by omega) le_rfl h1 hmod]

/-- Witness for C3: a model failing transiently twice before succeeding. -/
theorem generateContentWithRetry_transient_witness :
    generateContentWithRetry
        (fun n => if n = 3 then Except.ok "done" else Except.error "503 overloaded") 3 =
      ([Ev.call 1, Ev.progress "Retrying... (Attempt 2/3)", Ev.sleep 1000, Ev.call 2,
        Ev.progress "Retrying... (Attempt 3/3)", Ev.sleep 2000, Ev.call 3],
       .ok "done") :=
  generateContentWithRetry_transient_spec.1 _ "503 overloaded" "503 overloaded" "done"
    rfl (by decide) (by decide) rfl (by decide) (by decide) rfl

/-- Claim C5: a parsed response carrying the INVALID_DOCUMENT sentinel raises
an error whose code is INVALID_DOCUMENT (never a parse failure) and whose
detected-type label is extracted from the reason with the detected-pattern
(falling back to a generic label when the pattern is absent); the sentinel
check is applied on the brace-extraction recovery path as well; the concrete
Train Ticket payload yields the label Train Ticket. -/
theorem processResponse_sentinel_spec :
    (∀ (parse : Str → Except String Json) (text : Str) (obj : Json),
      parse (trimStr (fencedCandidate text)) = .ok obj →
      jsonStrField obj ("error".toList) = some ("INVALID_DOCUMENT".toList) →
      processResponse parse text =
        .error (mkInvalidDocErr (jsonStrField obj ("reason".toList)))) ∧
    (∀ (parse : Str → Except String Json) (text : Str) (em : String) (b : Str) (obj : Json),
      parse (trimStr (fencedCandidate text)) = .error em →
      braceMatch (fencedCandidate text) = some b →
      parse b = .ok obj →
      jsonStrField obj ("error".toList) = some ("INVALID_DOCUMENT".toList) →
      processResponse parse text =
        .error (mkInvalidDocErr (jsonStrField obj ("reason".toList)))) ∧
    (∀ reasonField : Option Str,
      (mkInvalidDocErr reasonField).code = some "INVALID_DOCUMENT" ∧
      (mkInvalidDocErr reasonField).detectedType =
        some (detectedTypeOf (reasonField.getD []))) ∧
    (∀ reason : Str, matchDetected reason = none →
      detectedTypeOf reason = genericDetectedLabel) ∧
    detectedTypeOf
      ("The file appears to be unrelated to academic coursework (detected: Train Ticket).".toList) =
      "Train Ticket" := by
  refine ⟨?_, ?_, ?_, ?_, by decide⟩
  · intro parse text obj hp hfield
    have hs : sentinelCheck obj = true := by
      rw [show sentinelCheck obj =
        decide (jsonStrField obj ("error".toList) = some ("INVALID_DOCUMENT".toList)) from rfl,
        hfield]
      decide
    simp only [processResponse]
    rw [hp]
    show (if sentinelCheck obj = true then
        Except.error (mkInvalidDocErr (jsonStrField obj ("reason".toList)))
      else Except.ok obj) = _
    rw [if_pos hs]
  · intro parse text em b obj hp hb hp2 hfield
    have hs : sentinelCheck obj = true := by
      rw [show sentinelCheck obj =
        decide (jsonStrField obj ("error".toList) = some ("INVALID_DOCUMENT".toList)) from rfl,
        hfield]
      decide
    simp only [processResponse]
    rw [hp, hb]
    show (match parse b with
      | Except.ok analysis =>
        if sentinelCheck analysis = true then
          Except.error (mkInvalidDocErr (jsonStrField analysis ("reason".toList)))
        else Except.ok analysis
      | Except.error _ => Except.error { message := parseFailureMsg }) = _
    rw [hp2]
    show (if sentinelCheck obj = true then
        Except.error (mkInvalidDocErr (jsonStrField obj ("reason".toList)))
      else Except.ok obj) = _
    rw [if_pos hs]
  · intro reasonField
    cases reasonField <;> exact ⟨rfl, rfl⟩
  · intro reason h
    simp [detectedTypeOf, h]

/-- Witness for C5 at the concrete rejection payload. -/
theorem processResponse_sentinel_witness :
    processResponse jsonParseModel
        ("\x7b\"error\":\"INVALID_DOCUMENT\",\"reason\":\"The file appears to be unrelated to academic coursework (detected: Train Ticket).\"\x7d".toList) =
      .error
        { message := "The file appears to be unrelated to academic coursework (detected: Train Ticket).",
          code := some "INVALID_DOCUMENT",
          detectedType := some "Train Ticket" } :=
  (processResponse_sentinel_spec.1 jsonParseModel
      ("\x7b\"error\":\"INVALID_DOCUMENT\",\"reason\":\"The file appears to be unrelated to academic coursework (detected: Train Ticket).\"\x7d".toList)
      (Json.obj
        [("error".toList, Json.str ("INVALID_DOCUMENT".toList)),
         ("reason".toList, Json.str
           ("The file appears to be unrelated to academic coursework (detected: Train Ticket).".toList))])
      rfl rfl).trans rfl

/-- Claim C1: when the combined extracted text (each file capped at 4000
characters, concatenated and truncated to 8000) fails the density check, the
orchestrator raises the INVALID_DOCUMENT gate error with zero model
invocations and the error reaches the caller unchanged through the final
funnel; a failed extraction on either file is replaced by empty text rather
than aborting. -/
theorem analyzeExamStrategy_gate_spec :
    (∀ (parse : Str → Except String Json) (p1 p2 : Except Unit (List Str))
        (mocks : List (Nat → Except String String)),
      (validateDocumentContent (combinedText p1 p2)).passed = false →
      analyzeExamStrategy parse p1 p2 mocks = ([], .error gateError)) ∧
    (∀ pages : List Str, (extractTextFromPdf pages 4000).length ≤ 4000) ∧
    (∀ p1 p2 : Except Unit (List Str), (combinedText p1 p2).length ≤ 8000) ∧
    extractedOrEmpty (.error ()) = [] := by
  refine ⟨?_, fun pages => extractPages_length_le 4000 pages [], ?_, rfl⟩
  · intro parse p1 p2 mocks h
    have hn : normalizeError gateError = gateError := by decide
    simp [analyzeExamStrategy, h, Except.mapError, hn]
  · intro p1 p2
    simp only [combinedText, List.length_take]
    exact min_le_left _ _

/-- Witness for C1: the first extraction fails (empty text is substituted)
and the second is non-academic, so the gate rejects with no model call. -/
theorem analyzeExamStrategy_gate_witness :
    analyzeExamStrategy (fun _ => .error "unused") (.error ())
        (.ok ["just a grocery receipt".toList]) [fun _ => .ok "unused"] =
      ([], .error gateError) :=
  analyzeExamStrategy_gate_spec.1 (fun _ => .error "unused") (.error ())
    (.ok ["just a grocery receipt".toList]) [fun _ => .ok "unused"]
    (validateDocumentContent_not_passed_of _ (by decide))

/-- Claim C6 (amended): only a failure whose message carries 503, high
demand, or currently experiencing triggers the cross-model fallback, with a
2000 ms delay and a fresh attempt counter on the next model; any other
failure aborts the sequence without trying further models; an exhausted list
rethrows the stored error, which the final funnel maps to the high-demand
user message (not a generic all-models-unavailable failure). -/
theorem analyzeExamStrategy_fallback_spec :
    (∀ (parse : Str → Except String Json) (mock : Nat → Except String String)
        (rest : List (Nat → Except String String)) (mi : Nat)
        (last : Option JsError) (e : String),
      (generateContentWithRetry mock 3).2 = .error (some e) →
      isHighDemandMsg e = true →
      orchLoop parse (mock :: rest) mi last =
        ((generateContentWithRetry mock 3).1.map (fun ev => (mi, ev)) ++
            (mi, Ev.sleep 2000) :: (orchLoop parse rest (mi + 1) (some { message := e })).1,
          (orchLoop parse rest (mi + 1) (some { message := e })).2)) ∧
    (∀ (parse : Str → Except String Json) (mock : Nat → Except String String)
        (rest : List (Nat → Except String String)) (mi : Nat)
        (last : Option JsError) (e : String),
      (generateContentWithRetry mock 3).2 = .error (some e) →
      isHighDemandMsg e = false →
      orchLoop parse (mock :: rest) mi last =
        ((generateContentWithRetry mock 3).1.map (fun ev => (mi, ev)),
          .error { message := e })) ∧
    (∀ (parse : Str → Except String Json) (mock : Nat → Except String String)
        (rest : List (Nat → Except String String)) (mi : Nat)
        (last : Option JsError) (t : String) (analysis : Json),
      (generateContentWithRetry mock 3).2 = .ok t →
      processResponse parse t.toList = .ok analysis →
      orchLoop parse (mock :: rest) mi last =
        ((generateContentWithRetry mock 3).1.map (fun ev => (mi, ev)), .ok analysis)) ∧
    (∀ (parse : Str → Except String Json) (mi : Nat) (err : JsError),
      orchLoop parse [] mi (some err) = ([], .error err)) ∧
    (∀ m : Nat → Except String String, generateContentWithRetry m 3 = retryGo m 3 3 1 none) ∧
    (∀ err : JsError, err.code = none →
      containsSub ("timeout".toList) err.message.toList = false →
      containsSub ("quota".toList) err.message.toList = false →
      containsSub ("429".toList) err.message.toList = false →
      containsSub ("invalid".toList) err.message.toList = false →
      containsSub ("401".toList) err.message.toList = false →
      containsSub ("403".toList) err.message.toList = false →
      isHighDemandMsg err.message = true →
      normalizeError err = { message := highDemandUserMsg }) := by
  refine ⟨orchLoop_highDemand_next, orchLoop_abort, orchLoop_success,
    orchLoop_exhausted, fun _ => rfl, ?_⟩
  intro err hcode ht hq h429 hi h401 h403 hh
  have hh2 : (containsSub ("503".toList) err.message.toList ||
      containsSub ("high demand".toList) err.message.toList ||
      containsSub ("currently experiencing".toList) err.message.toList) = true := hh
  simp only [normalizeError]
  rw [if_neg (show ¬ err.code = some "INVALID_DOCUMENT" by rw [hcode]; decide),
    if_neg (show ¬ containsSub ("timeout".toList) err.message.toList = true by
      rw [ht]; decide),
    if_neg (show ¬ (containsSub ("quota".toList) err.message.toList ||
      containsSub ("429".toList) err.message.toList) = true by rw [hq, h429]; decide),
    if_neg (show ¬ (containsSub ("invalid".toList) err.message.toList ||
      containsSub ("401".toList) err.message.toList ||
      containsSub ("403".toList) err.message.toList) = true by
      rw [hi, h401, h403]; decide),
    if_pos hh2]

/-- Witness for C6: the first model always fails with 503, so the loop
sleeps 2000 ms and obtains the result from the second model. -/
theorem analyzeExamStrategy_fallback_witness :
    orchLoop jsonParseModel
        [fun _ => (Except.error "503 Service Unavailable" : Except String String),
         fun _ => (Except.ok "\x7b\x7d" : Except String String)] 0 none =
      ([(0, Ev.call 1), (0, Ev.progress "Retrying... (Attempt 2/3)"), (0, Ev.sleep 1000),
        (0, Ev.call 2), (0, Ev.progress "Retrying... (Attempt 3/3)"), (0, Ev.sleep 2000),
        (0, Ev.call 3), (0, Ev.sleep 2000), (1, Ev.call 1)],
       .ok (Json.obj [])) :=
  (analyzeExamStrategy_fallback_spec.1 jsonParseModel
      (fun _ => (Except.error "503 Service Unavailable" : Except String String))
      [fun _ => (Except.ok "\x7b\x7d" : Except String String)] 0 none
      "503 Service Unavailable" rfl (by decide)).trans rfl

/-- Counterexample to C6 as stated: a model that always fails with the
transient message 429 does not trigger the fallback (the second model is
never invoked and the run surfaces the quota message), and when every model
fails with 503 the run surfaces the high-demand message rather than a
generic all-models-unavailable failure. -/
theorem analyzeExamStrategy_fallback_counterexample :
    (analyzeExamStrategy jsonParseModel
        (.ok ["syllabus unit marks exam exam exam".toList])
        (.ok ["syllabus unit marks exam exam exam".toList])
        [fun _ => (Except.error "429 Too Many Requests" : Except String String),
         fun _ => (Except.ok "\x7b\x7d" : Except String String)] =
      ([(0, Ev.call 1), (0, Ev.progress "Retrying... (Attempt 2/3)"), (0, Ev.sleep 1000),
        (0, Ev.call 2), (0, Ev.progress "Retrying... (Attempt 3/3)"), (0, Ev.sleep 2000),
        (0, Ev.call 3)],
       .error { message := "API quota exceeded. Please try again later." })) ∧
    (analyzeExamStrategy jsonParseModel
        (.ok ["syllabus unit marks exam exam exam".toList])
        (.ok ["syllabus unit marks exam exam exam".toList])
        [fun _ => (Except.error "503 Service Unavailable" : Except String String),
         fun _ => (Except.error "503 Service Unavailable" : Except String String)] =
      ([(0, Ev.call 1), (0, Ev.progress "Retrying... (Attempt 2/3)"), (0, Ev.sleep 1000),
        (0, Ev.call 2), (0, Ev.progress "Retrying... (Attempt 3/3)"), (0, Ev.sleep 2000),
        (0, Ev.call 3), (0, Ev.sleep 2000),
        (1, Ev.call 1), (1, Ev.progress "Retrying... (Attempt 2/3)"), (1, Ev.sleep 1000),
        (1, Ev.call 2), (1, Ev.progress "Retrying... (Attempt 3/3)"), (1, Ev.sleep 2000),
        (1, Ev.call 3), (1, Ev.sleep 2000)],
       .error { message := highDemandUserMsg })) := by
  have hpass : (validateDocumentContent
      (combinedText (.ok ["syllabus unit marks exam exam exam".toList])
        (.ok ["syllabus unit marks exam exam exam".toList]))).passed = true :=
    validateDocumentContent_passed_of _ (by decide)
  constructor
  · simp only [analyzeExamStrategy, hpass, eq_self_iff_true, if_true]
    rfl
  · simp only [analyzeExamStrategy, hpass, eq_self_iff_true, if_true]
    rfl

/-- Claim C9 (amended): formatting the same analysis with the same generation
date yields byte-identical markup; the rendered sections follow the topics
sorted by confidence descending (a permutation of the input), and a section
carries the decorated marker exactly when effort is Low and reward is
High. -/
theorem exportToMarkdown_spec :
    (∀ (d : String) (a : AnalysisResult), exportToMarkdown d a = exportToMarkdown d a) ∧
    (∀ a : AnalysisResult,
      (sortedTopics a).Pairwise (fun x y : Topic => y.confidence ≤ x.confidence)) ∧
    (∀ a : AnalysisResult, (sortedTopics a).Perm a.topics) ∧
    (∀ (i : Nat) (t : Topic),
      markerLine ∈ topicLines i t ↔ (t.effort = "Low" ∧ t.reward = "High")) := by
  refine ⟨fun _ _ => rfl, ?_, ?_, markerLine_mem_topicLines_iff⟩
  · intro a
    exact List.sorted_insertionSort confGE a.topics
  · intro a
    exact List.perm_insertionSort confGE a.topics

/-- Counterexample to C9 as stated: the export embeds the generation date
taken from the wall clock, so the same analysis formatted on two different
dates yields different bytes. -/
theorem exportToMarkdown_counterexample :
    exportToMarkdown "1/1/2025" ⟨[], none⟩ ≠ exportToMarkdown "1/2/2025" ⟨[], none⟩ := by
  decide

end ExamPilot
